import Mathlib

/-!
Shallow embedding of the document ingestion / retrieval-augmented answering
pipeline of the smart-document-bot repository (src/src/app/actions.ts and
src/src/lib/langchain.ts).

Strings of the JavaScript source are modelled by Lean `String`s, character
sequences by `List Char`.  Thrown exceptions are modelled by
`Except String` (the error carries the JS `Error` message).  External
libraries (pdf-parse, pdf2json, mammoth, the Groq SDK, the vector store and
its embedder) are modelled as oracles: data describing the outcome they
produce on the particular input at hand, over which the theorems quantify.
-/

namespace SmartDocBot

/-! ### JavaScript string primitives -/

/-- The characters the JavaScript regexp `.` does NOT match (line
terminators, ECMA-262 LineTerminator): LF, CR, LS, PS. -/
def isLineTerminator (c : Char) : Bool :=
  c = '\n' || c = '\r' || c = '\u2028' || c = '\u2029'

/-- ECMA-262 `String.prototype.trim` white space: WhiteSpace ∪ LineTerminator. -/
def isJsWhitespace (c : Char) : Bool :=
  c = ' ' || c = '\t' || c = '\n' || c = '\r' || c = '\x0b' || c = '\x0c' ||
  c = '\u00A0' || c = '\u1680' ||
  ('\u2000' ≤ c && c ≤ '\u200A') ||
  c = '\u2028' || c = '\u2029' || c = '\u202F' || c = '\u205F' ||
  c = '\u3000' || c = '\uFEFF'

/-- JavaScript `s.trim()`: strip leading and trailing white space. -/
def jsTrim (s : String) : String :=
  String.mk (((s.toList.dropWhile isJsWhitespace).reverse.dropWhile
    isJsWhitespace).reverse)

/-- JavaScript `s.includes(pat)`: substring containment. -/
def jsIncludes (s pat : String) : Bool :=
  decide (pat.toList <:+: s.toList)

/-! ### The chunker

`actions.ts` line 150: `const allChunks = text.match(/.{1,1000}/g) || [];`.
A global match of `.{1,1000}`: at each position the regexp greedily takes up
to 1000 consecutive non-line-terminator characters; a position holding a line
terminator matches nothing and the scan advances past it.  The concatenation
of the matches is therefore the input with its line terminators removed. -/

def jsMatchChunks (cs : List Char) : List (List Char) :=
  match cs with
  | [] => []
  | c :: rest =>
    if isLineTerminator c then jsMatchChunks rest
    else
      let r := (rest.takeWhile (fun x => !isLineTerminator x)).take 999
      (c :: r) :: jsMatchChunks (rest.drop r.length)
termination_by cs.length
decreasing_by
  · simp
  · simp only [List.length_cons, List.length_drop]
    omega

/-- Source line 152 of `actions.ts`: keep only the first 50 chunks. -/
def limitChunks (l : List (List Char)) : List (List Char) :=
  if l.length > 50 then l.take 50 else l

/-- The whole chunk-splitting step of `handlePdfUpload` (lines 150-152). -/
def chunkText (cs : List Char) : List (List Char) :=
  limitChunks (jsMatchChunks cs)

/-! ### External parser oracles -/

/-- Outcome of the primary `pdf-parse` call on the uploaded buffer:
either it resolves with a `pdfData` whose `text` field is `none`
(absent/undefined) or `some t`, or it rejects with an error message. -/
inductive PdfPrimaryResult where
  | ok (text : Option String)
  | err (message : String)
  deriving DecidableEq

/-- A text run of the pdf2json page tree: the `T` field.  The empty string
models a falsy/missing `T` (the source tests `if (run.T)`). -/
structure PdfRun where
  T : String
  deriving DecidableEq

/-- A `Texts` entry of a pdf2json page; `R` may be absent or not an array. -/
structure PdfTextItem where
  R : Option (List PdfRun)
  deriving DecidableEq

/-- A page of the pdf2json output; `Texts` may be absent or not an array. -/
structure PdfPage where
  Texts : Option (List PdfTextItem)
  deriving DecidableEq

/-- Outcome of the pdf2json fallback parse (`actions.ts` lines 36-104):
the synchronous setup (`require`, constructor) may throw; otherwise exactly
one of the timeout, the `pdfParser_dataError` event, or the
`pdfParser_dataReady` event (with its `Pages`, possibly absent) settles the
promise. -/
inductive Pdf2JsonOutcome where
  | setupFailure (msg : String)
  | timeout
  | dataError (parserError : String)
  | dataReady (pages : Option (List PdfPage))
  deriving DecidableEq

/-- Outcome of `mammoth.extractRawText` on the buffer: a thrown error, or a
result whose `value` field may be absent (`none`). -/
abbrev MammothResult := Except String (Option String)

/-- Everything the external parsers do on this particular uploaded file. -/
structure ParseEnv where
  /-- behaviour of `pdf-parse` on the buffer -/
  pdfPrimary : PdfPrimaryResult
  /-- behaviour of the pdf2json fallback on the buffer -/
  pdf2json : Pdf2JsonOutcome
  /-- behaviour of `decodeURIComponent`: `none` models a throw (then the raw text is used) -/
  decode : String → Option String
  /-- result of `buffer.toString("utf-8")` for this buffer -/
  utf8Content : String
  /-- behaviour of `mammoth.extractRawText` on the buffer -/
  mammoth : MammothResult

/-! ### extractText (`actions.ts` lines 18-128) -/

/-- Contribution of one run to the pdf2json full text
(`actions.ts` lines 63-73). -/
def runContrib (decode : String → Option String) (run : PdfRun) : String :=
  if run.T = "" then ""
  else
    match decode run.T with
    | some d => d ++ " "
    | none => run.T ++ " "

/-- Contribution of one `Texts` item (`actions.ts` lines 61-75). -/
def textItemContrib (decode : String → Option String) (t : PdfTextItem) :
    String :=
  match t.R with
  | none => ""
  | some runs => String.join (runs.map (runContrib decode))

/-- Contribution of one page; a page with a `Texts` array also appends a
newline (`actions.ts` lines 59-77). -/
def pageContrib (decode : String → Option String) (p : PdfPage) : String :=
  match p.Texts with
  | none => ""
  | some items => String.join (items.map (textItemContrib decode)) ++ "\n"

/-- The `fullText` accumulated by the `pdfParser_dataReady` handler
(`actions.ts` lines 54-79). -/
def fallbackFullText (decode : String → Option String)
    (pages : Option (List PdfPage)) : String :=
  match pages with
  | none => ""
  | some ps => String.join (ps.map (pageContrib decode))

/-- The composite error message thrown when the fallback setup itself throws
(`actions.ts` lines 97-103). -/
def xrefFailureMessage (errorMessage fallbackErrorMsg : String) : String :=
  "PDF parsing failed due to file structure issues (bad XRef entry). " ++
  "This may happen with certain PDF formats. " ++
  "Please try: 1) Re-saving the PDF in a different application, " ++
  "2) Converting to DOCX or TXT format, or 3) Using a different PDF file. " ++
  "Technical details: " ++ errorMessage ++ ". Fallback error: " ++
  fallbackErrorMsg

/-- The timeout rejection message of the fallback (`actions.ts` line 44). -/
def pdfTimeoutMessage : String :=
  "PDF parsing timeout - the file may be too large or corrupted"

/-- The fallback timeout in milliseconds (`actions.ts` line 45). -/
def pdfTimeoutMs : Nat := 30000

/-- The message rejecting an empty extraction (`actions.ts` lines 28, 82). -/
def pdfEmptyMessage : String :=
  "PDF appears to be empty or contains no extractable text"

/-- The encrypted-PDF error message (`actions.ts` line 106). -/
def pdfEncryptedMessage : String :=
  "This PDF appears to be password-protected or encrypted. " ++
  "Please remove the password and try again."

/-- The pdf2json fallback path (`actions.ts` lines 36-104).  Note the outer
`try`/`catch` at lines 36/94 is synchronous: a rejection of the returned
promise is NOT wrapped by it, only a throw during `require`/`new`. -/
def pdfFallback (env : ParseEnv) (errorMessage : String) :
    Except String String :=
  match env.pdf2json with
  | .setupFailure msg => .error (xrefFailureMessage errorMessage msg)
  | .timeout => .error pdfTimeoutMessage
  | .dataError e => .error ("PDF parsing error: " ++ e)
  | .dataReady pages =>
    let fullText := fallbackFullText env.decode pages
    if jsTrim fullText = "" then .error pdfEmptyMessage
    else .ok (jsTrim fullText)

/-- The `catch` block of the primary PDF parse (`actions.ts` lines 31-110):
classify `errorMessage` and either fall back, or rethrow. -/
def pdfCatch (env : ParseEnv) (errorMessage : String) : Except String String :=
  if jsIncludes errorMessage "XRef" || jsIncludes errorMessage "xref" then
    pdfFallback env errorMessage
  else if jsIncludes errorMessage "password" ||
      jsIncludes errorMessage "encrypted" then
    .error pdfEncryptedMessage
  else
    .error ("Failed to parse PDF. The file may be corrupted or in an " ++
      "unsupported format: " ++ errorMessage)

/-- The DOCX MIME type string (`actions.ts` line 113). -/
def docxMime : String :=
  "application/vnd.openxmlformats-officedocument.wordprocessingml.document"

/-- The function `extractText` (`actions.ts` lines 18-128), dispatching on the declared
`file.type`.  An `Except.error` models a rejected promise carrying the
message of the thrown error. -/
def extractText (env : ParseEnv) (fileType : String) : Except String String :=
  if fileType = "application/pdf" then
    match env.pdfPrimary with
    | .ok none => pdfCatch env pdfEmptyMessage
    | .ok (some t) =>
      if t = "" || jsTrim t = "" then pdfCatch env pdfEmptyMessage
      else .ok t
    | .err msg => pdfCatch env msg
  else if fileType = "text/plain" then
    .ok env.utf8Content
  else if fileType = docxMime then
    match env.mammoth with
    | .error e => .error ("Failed to parse DOCX file: " ++ e)
    | .ok none =>
      .error ("Failed to parse DOCX file: DOCX appears to be empty or " ++
        "contains no extractable text")
    | .ok (some v) =>
      if v = "" || jsTrim v = "" then
        .error ("Failed to parse DOCX file: DOCX appears to be empty or " ++
          "contains no extractable text")
      else .ok v
  else
    .error "Unsupported file type"

/-! ### Session cache and handlePdfUpload (`actions.ts` lines 11-181) -/

/-- Handles to the external LangChain objects (ChatGroq, FakeEmbeddings,
MemoryVectorStore) are opaque; we model each by a numeric identity. -/
structure VectorStore where
  id : Nat
  deriving DecidableEq

/-- The module-level `sessionCache` (`actions.ts` lines 11-16). -/
structure SessionCache where
  vectorStore : Option VectorStore
  chain : Option Nat
  embeddings : Option Nat
  llm : Option Nat
  deriving DecidableEq

/-- The empty initial cache (`actions.ts` line 16: `= {}`). -/
def emptyCache : SessionCache :=
  { vectorStore := none, chain := none, embeddings := none, llm := none }

/-- What `createGroqAgent` returns (`langchain.ts` lines 7-30): the ChatGroq
handle is used both as `chain` and as `llm`. -/
structure Agent where
  chain : Nat
  embeddings : Nat
  llm : Nat
  deriving DecidableEq

/-- The uploaded file as `handlePdfUpload` sees it: a declared MIME type and
the parser behaviours on its bytes. -/
structure FileInfo where
  type : String
  parse : ParseEnv

/-- External collaborators of the upload path: the agent factory and
`MemoryVectorStore.fromTexts` (which may reject if the embedder fails);
`fromTexts` receives the chunks, their `{id: i}` metadata and the
embeddings handle. -/
structure UploadEnv where
  createGroqAgent : Except String Agent
  fromTexts : List String → List Nat → Nat → Except String VectorStore

/-- The fixed success message (`actions.ts` line 176). -/
def uploadSuccessMessage : String :=
  "Document uploaded and processed successfully!"

/-- The action `handlePdfUpload` (`actions.ts` lines 130-181), with the session cache
passed and returned explicitly.  Every rejection of `extractText` is caught
(line 143) and every rejection of the agent/vector-store construction is
caught (line 177); both are turned into returned strings. -/
def handlePdfUpload (env : UploadEnv) (input : Option FileInfo)
    (cache : SessionCache) : String × SessionCache :=
  match input with
  | none => ("No file provided", cache)
  | some file =>
    match extractText file.parse file.type with
    | .error e =>
      ("Failed to extract text from document: " ++ e, cache)
    | .ok text =>
      let chunks := (chunkText text.toList).map String.mk
      match env.createGroqAgent with
      | .error e => ("Failed to process document: " ++ e, cache)
      | .ok agent =>
        match env.fromTexts chunks (List.range chunks.length)
            agent.embeddings with
        | .error e => ("Failed to process document: " ++ e, cache)
        | .ok vectorStore =>
          (uploadSuccessMessage,
           { vectorStore := some vectorStore, chain := some agent.chain,
             embeddings := some agent.embeddings, llm := some agent.llm })

/-! ### chatWithBot (`actions.ts` lines 183-231) -/

/-- One element of an array-shaped `response.content`: a string, an object
with a `text` property (carrying `String(part.text)`), or anything else
(a non-text part, `null`, a number, an object without `text`, ...). -/
inductive JsPart where
  | str (s : String)
  | objWithText (text : String)
  | other
  deriving DecidableEq

/-- The `content` field of a structured model response: a string, an array
of parts, or any other value (carrying its `String(content)` coercion). -/
inductive JsContent where
  | str (s : String)
  | arr (parts : List JsPart)
  | other (stringRep : String)
  deriving DecidableEq

/-- A model response: a plain string, or an object with a `content` field
(also carrying `JSON.stringify(response)` for the last-resort fallback). -/
inductive ModelResponse where
  | str (s : String)
  | obj (content : JsContent) (jsonRep : String)
  deriving DecidableEq

/-- The per-part extraction of the array branch (`actions.ts` lines
219-225). -/
def partText : JsPart → String
  | .str s => s
  | .objWithText t => t
  | .other => ""

/-- The response normalization of `chatWithBot` (`actions.ts` lines
210-229): always produces a string. -/
def normalizeResponse : ModelResponse → String
  | .str s => s
  | .obj content jsonRep =>
    match content with
    | .str s => s
    | .arr parts => String.join (parts.map partText)
    | .other stringRep =>
      if stringRep = "" then jsonRep else stringRep

/-- The fixed system prompt (`actions.ts` line 195). -/
def systemPrompt : String :=
  "You are a helpful assistant that answers questions based on the " ++
  "provided context from a document."

/-- The user turn of the prompt (`actions.ts` lines 196-203). -/
def userMessage (context message : String) : String :=
  "Based on the following context from the document, answer the question:" ++
  "\n\nContext:\n" ++ context ++ "\n\nQuestion: " ++ message ++ "\n\nAnswer:"

/-- External collaborators of a chat turn: the retriever over the cached
vector store (k = 3 is baked into the source) and the model invocation. -/
structure ChatEnv where
  /-- behaviour of `vectorStore.asRetriever(3).getRelevantDocuments(message)`:
  the `pageContent` of each retrieved document, in order -/
  retriever : VectorStore → String → List String
  /-- behaviour of `llm.invoke([...])` on a message list -/
  invoke : Nat → List (String × String) → ModelResponse

/-- The no-document guidance string (`actions.ts` line 185). -/
def noDocumentMessage : String := "Please upload a document first."

/-- The action `chatWithBot` (`actions.ts` lines 183-231), with the session cache an
explicit argument. -/
def chatWithBot (env : ChatEnv) (cache : SessionCache) (message : String) :
    String :=
  match cache.vectorStore, cache.llm with
  | some vectorStore, some llm =>
    let docs := env.retriever vectorStore message
    let context := String.intercalate "\n\n" docs
    let response := env.invoke llm
      [("system", systemPrompt), ("user", userMessage context message)]
    normalizeResponse response
  | _, _ => noDocumentMessage

/-! ### Derived message strings -/

/-- The error `handlePdfUpload` surfaces for a PDF whose primary parse
succeeds with empty text: the empty-extraction throw at line 28 is caught
at line 31 and re-wrapped by the generic branch at line 108. -/
def pdfEmptyFailureMessage : String :=
  "Failed to parse PDF. The file may be corrupted or in an unsupported " ++
  "format: " ++ pdfEmptyMessage

/-- The error for a DOCX with empty extractable text: the throw at line 119
is caught at line 122 and re-wrapped. -/
def docxEmptyFailureMessage : String :=
  "Failed to parse DOCX file: DOCX appears to be empty or contains no " ++
  "extractable text"

/-! ### Specification-side definitions (for refinement statements) -/

/-- Modelled from the spec: the textual payload of one response part —
a string-valued part or the text of a text-bearing object part is kept,
a non-text part is dropped ("concatenate only string-valued or
text-bearing parts, dropping non-text parts silently"). -/
def specPartText : JsPart → Option String
  | .str s => some s
  | .objWithText t => some t
  | .other => none

/-! ### Sample environments used by the concrete witnesses -/

/-- A parse environment whose PDF text is all-whitespace, whose DOCX text is
empty and whose plain-text decoding is empty. -/
def sampleParseEnv : ParseEnv :=
  { pdfPrimary := .ok (some " "), pdf2json := .timeout,
    decode := fun t => some t, utf8Content := "", mammoth := .ok (some "") }

/-- A parse environment whose primary PDF parse fails with an XRef message
and whose pdf2json fallback times out. -/
def xrefTimeoutParseEnv : ParseEnv :=
  { pdfPrimary := .err "bad XRef entry", pdf2json := .timeout,
    decode := fun t => some t, utf8Content := "", mammoth := .ok none }

/-- A parse environment whose primary PDF parse fails with a message that
mentions both xref corruption and password protection, and whose pdf2json
fallback succeeds with one page holding the single run "hello". -/
def xrefPasswordParseEnv : ParseEnv :=
  { pdfPrimary := .err "bad xref: password-protected",
    pdf2json := .dataReady (some [{ Texts := some [{ R := some [{ T := "hello" }] }] }]),
    decode := fun t => some t, utf8Content := "", mammoth := .ok none }

/-- A parse environment whose primary PDF parse fails with a pure password
message (no xref mention); the fallback would time out if it were run. -/
def encryptedParseEnv : ParseEnv :=
  { pdfPrimary := .err "password required", pdf2json := .timeout,
    decode := fun t => some t, utf8Content := "", mammoth := .ok none }

/-- An upload environment whose collaborators always succeed. -/
def sampleUploadEnv : UploadEnv :=
  { createGroqAgent := .ok { chain := 1, embeddings := 2, llm := 3 },
    fromTexts := fun _ _ _ => .ok { id := 7 } }

/-- A chat environment with a trivial retriever and model. -/
def sampleChatEnv : ChatEnv :=
  { retriever := fun _ _ => [], invoke := fun _ _ => .str "ok" }

/-! ### Helper lemmas about the chunker -/

/-- Taking from a list as many elements as a truncated `takeWhile` of it is
long returns exactly that truncated `takeWhile`. -/
theorem take_length_takeWhile_take (p : Char → Bool) (l : List Char) (m : Nat) :
    l.take ((l.takeWhile p).take m).length = (l.takeWhile p).take m := by
  induction l generalizing m with
  | nil => simp
  | cons a l ih =>
    cases m with
    | zero => simp
    | succ m =>
      by_cases ha : p a
      · simp only [List.takeWhile_cons, ha, if_true, List.take_succ_cons,
          List.length_cons]
        rw [ih]
      · simp [List.takeWhile_cons, ha]

/-- A truncated `takeWhile` followed by the filtered remainder is the
filtered whole. -/
theorem filter_eq_takeWhile_take_append (p : Char → Bool) (l : List Char)
    (m : Nat) :
    (l.takeWhile p).take m ++ (l.drop ((l.takeWhile p).take m).length).filter p
      = l.filter p := by
  conv_rhs => rw [← List.take_append_drop ((l.takeWhile p).take m).length l]
  rw [List.filter_append, take_length_takeWhile_take]
  congr 1
  symm
  rw [List.filter_eq_self]
  intro a ha
  exact List.mem_takeWhile_imp (List.mem_of_mem_take ha)

/-- Concatenating every match of `/.{1,1000}/g` returns the input with its
line terminators removed (the regexp `.` skips them). -/
theorem flatten_jsMatchChunks (cs : List Char) :
    (jsMatchChunks cs).flatten = cs.filter (fun c => !isLineTerminator c) := by
  induction cs using jsMatchChunks.induct with
  | case1 => simp [jsMatchChunks]
  | case2 c rest h ih =>
    rw [jsMatchChunks]
    simp [h, ih]
  | case3 c rest h r ih =>
    have hc : isLineTerminator c = false := by simpa using h
    rw [jsMatchChunks]
    simp only [hc, Bool.false_eq_true, if_false]
    show ((c :: r) :: jsMatchChunks (rest.drop r.length)).flatten =
      List.filter (fun x => !isLineTerminator x) (c :: rest)
    rw [List.flatten_cons, List.filter_cons]
    simp only [hc, Bool.not_false, if_true, List.cons_append]
    rw [ih]
    exact congrArg (c :: .) (filter_eq_takeWhile_take_append _ rest 999)

/-- Dropping as many elements as a `take n` is long is dropping `n`. -/
theorem drop_length_take (l : List Char) (n : Nat) :
    l.drop ((l.take n).length) = l.drop n := by
  rcases le_total n l.length with h | h
  · congr 1
    simp [List.length_take]
    omega
  · have h1 : (l.take n).length = l.length := by
      simp [List.length_take]
      omega
    rw [h1, List.drop_length]
    symm
    rw [List.drop_eq_nil_iff]
    omega

/-- Taking while a predicate holds leaves a list unchanged when every element satisfies it. -/
theorem takeWhile_eq_self_of_all (p : Char → Bool) (l : List Char)
    (h : ∀ c ∈ l, p c = true) : l.takeWhile p = l := by
  induction l with
  | nil => rfl
  | cons a l ih =>
    rw [List.takeWhile_cons, if_pos (h a (by simp))]
    rw [ih (fun c hc => h c (by simp [hc]))]

/-- On line-terminator-free input the first `n` chunks concatenate to the
first `1000 * n` characters. -/
theorem flatten_take_jsMatchChunks (cs : List Char)
    (h : ∀ c ∈ cs, isLineTerminator c = false) (n : Nat) :
    ((jsMatchChunks cs).take n).flatten = cs.take (1000 * n) := by
  induction cs using jsMatchChunks.induct generalizing n with
  | case1 => simp [jsMatchChunks]
  | case2 c rest hterm ih =>
    exact absurd (h c (by simp)) (by simpa using hterm)
  | case3 c rest hterm r ih =>
    have hc : isLineTerminator c = false := by simpa using hterm
    have hall : ∀ x ∈ rest, (fun x => !isLineTerminator x) x = true := by
      intro x hx
      simp [h x (by simp [hx])]
    have hr : r = rest.take 999 := by
      show (rest.takeWhile (fun x => !isLineTerminator x)).take 999
        = rest.take 999
      rw [takeWhile_eq_self_of_all _ _ hall]
    rw [jsMatchChunks]
    simp only [hc, Bool.false_eq_true, if_false]
    show (((c :: r) :: jsMatchChunks (rest.drop r.length)).take n).flatten
      = (c :: rest).take (1000 * n)
    cases n with
    | zero => simp
    | succ n =>
      rw [List.take_succ_cons, List.flatten_cons]
      have hdrop : rest.drop r.length = rest.drop 999 := by
        rw [hr, drop_length_take]
      rw [ih (fun x hx => h x (List.mem_cons.mpr
        (Or.inr (List.mem_of_mem_drop hx)))) n]
      rw [hdrop, hr]
      have harith : 1000 * (n + 1) = (999 + 1000 * n) + 1 := by ring
      rw [harith, List.take_succ_cons, List.take_add]
      simp

/-- Every chunk produced by the regexp match is nonempty and at most 1000
characters long. -/
theorem mem_jsMatchChunks_length (cs : List Char) :
    ∀ ch ∈ jsMatchChunks cs, 1 ≤ ch.length ∧ ch.length ≤ 1000 := by
  induction cs using jsMatchChunks.induct with
  | case1 => simp [jsMatchChunks]
  | case2 c rest h ih =>
    rw [jsMatchChunks]
    simpa [h] using ih
  | case3 c rest h r ih =>
    rw [jsMatchChunks]
    simp only [h, if_false, Bool.false_eq_true, List.mem_cons]
    intro ch hch
    rcases hch with rfl | hch
    · constructor
      · simp
      · simp only [List.length_cons]
        have hrl :
            ((rest.takeWhile (fun x => !isLineTerminator x)).take 999).length
              ≤ 999 := by
          simp [List.length_take]
        omega
    · exact ih ch hch

/-- The 50-chunk limit always acts as a plain `take 50`. -/
theorem limitChunks_eq_take (l : List (List Char)) :
    limitChunks l = l.take 50 := by
  unfold limitChunks
  split
  · rfl
  · rw [List.take_of_length_le (by omega)]

/-! ### Helper lemmas about string joining -/

/-- Folding string append from `a` factors `a` out. -/
theorem join_foldl (a : String) (l : List String) :
    l.foldl (· ++ ·) a = a ++ l.foldl (· ++ ·) "" := by
  induction l generalizing a with
  | nil => simp
  | cons s l ih =>
    simp only [List.foldl_cons]
    rw [ih (a ++ s), ih (("" : String) ++ s)]
    simp [String.append_assoc]

/-- Unfolding `String.join` one step. -/
theorem join_cons (s : String) (l : List String) :
    String.join (s :: l) = s ++ String.join l := by
  show (s :: l).foldl (· ++ ·) "" = s ++ l.foldl (· ++ ·) ""
  rw [List.foldl_cons, join_foldl]
  simp

/-- Joining the per-part texts equals joining only the text-bearing parts:
non-text parts contribute nothing. -/
theorem join_partText_eq_filterMap (parts : List JsPart) :
    String.join (parts.map partText)
      = String.join (parts.filterMap specPartText) := by
  induction parts with
  | nil => rfl
  | cons p l ih =>
    cases p with
    | str s =>
      simp only [List.map_cons, List.filterMap_cons, partText, specPartText]
      rw [join_cons, join_cons, ih]
    | objWithText t =>
      simp only [List.map_cons, List.filterMap_cons, partText, specPartText]
      rw [join_cons, join_cons, ih]
    | other =>
      simp only [List.map_cons, List.filterMap_cons, partText, specPartText]
      rw [join_cons, ih]
      simp

/-! ### The claims -/

/-- Claim C1, counterexample: the chunker does NOT reconstruct every input text.
For T = "a\nb" there are only 2 chunks (well under 50), yet their
concatenation is "ab", not "a\nb": the regexp `.` of `/.{1,1000}/g` never
matches a line terminator, so newlines are silently dropped. -/
theorem chunker_drops_newline_cex :
    (chunkText ['a', '\n', 'b']).length ≤ 50 ∧
    (chunkText ['a', '\n', 'b']).flatten ≠ ['a', '\n', 'b'] := by
  constructor
  · simp [chunkText, limitChunks, jsMatchChunks.eq_def, isLineTerminator]
  · simp [chunkText, limitChunks, jsMatchChunks.eq_def, isLineTerminator]

/-- Claim C1 (amended): for every input text T containing no line terminators
(LF, CR, U+2028, U+2029), the in-order concatenation of the chunks reconstructs T
exactly when there are at most 50 chunks, and otherwise the first 50
chunks concatenate to exactly the first 50000 characters of T — a
prefix of T of length at most 50000.  For general T the concatenation of
all (untruncated) chunks is T with its line terminators removed. -/
theorem chunker_reconstruction_amended (cs : List Char)
    (h : ∀ c ∈ cs, isLineTerminator c = false) :
    ((jsMatchChunks cs).length ≤ 50 → (chunkText cs).flatten = cs) ∧
    (50 < (jsMatchChunks cs).length →
      (chunkText cs).flatten = cs.take 50000 ∧
      (chunkText cs).flatten.length ≤ 50000 ∧
      ∃ rest, (chunkText cs).flatten ++ rest = cs) ∧
    (jsMatchChunks cs).flatten
      = cs.filter (fun c => !isLineTerminator c) := by
  have hct : chunkText cs = (jsMatchChunks cs).take 50 := by
    rw [chunkText, limitChunks_eq_take]
  have hself : (jsMatchChunks cs).flatten = cs := by
    rw [flatten_jsMatchChunks, List.filter_eq_self]
    intro a ha
    simp [h a ha]
  refine ⟨?_, ?_, flatten_jsMatchChunks cs⟩
  · intro hlen
    rw [chunkText, limitChunks, if_neg (by omega)]
    exact hself
  · intro hlen
    have h1 : (chunkText cs).flatten = cs.take 50000 := by
      rw [hct]
      have h2 := flatten_take_jsMatchChunks cs h 50
      have e : (1000 : Nat) * 50 = 50000 := by norm_num
      rw [e] at h2
      exact h2
    refine ⟨h1, ?_, ?_⟩
    · rw [h1, List.length_take]
      omega
    · exact ⟨cs.drop 50000, by rw [h1, List.take_append_drop]⟩

/-- Witness for the amended C1 at the concrete line-terminator-free text
"ab": the chunks concatenate back to it. -/
theorem chunker_reconstruction_amended_witness :
    (chunkText ['a', 'b']).flatten = ['a', 'b'] :=
  (chunker_reconstruction_amended ['a', 'b'] (by decide)).1
    (by simp [jsMatchChunks.eq_def, isLineTerminator])

/-- Claim C6: every chunk the chunker produces has length at most 1000
characters, and at most 50 chunks are produced; the truncation keeps
exactly the first 50 chunks in order. -/
theorem chunker_bounds (cs : List Char) :
    (∀ ch ∈ chunkText cs, ch.length ≤ 1000) ∧
    (chunkText cs).length ≤ 50 ∧
    chunkText cs = (jsMatchChunks cs).take 50 := by
  have hct : chunkText cs = (jsMatchChunks cs).take 50 := by
    rw [chunkText, limitChunks_eq_take]
  refine ⟨?_, ?_, hct⟩
  · intro ch hch
    rw [hct] at hch
    exact (mem_jsMatchChunks_length cs ch (List.mem_of_mem_take hch)).2
  · rw [hct, List.length_take]
    omega

/-- Witness for C6 at the concrete text "ab": its single chunk is within
the length bound. -/
theorem chunker_bounds_witness :
    (['a', 'b'] : List Char).length ≤ 1000 ∧
    (chunkText ['a', 'b']).length ≤ 50 :=
  ⟨(chunker_bounds ['a', 'b']).1 ['a', 'b']
      (by simp [chunkText, limitChunks, jsMatchChunks.eq_def, isLineTerminator]),
   (chunker_bounds ['a', 'b']).2.1⟩

/-- Claim C3: response normalization is total (always yields a string, raising
nothing) and case-faithful: a plain string response is used as-is; a string
`content` is used as-is; an array `content` becomes the in-order
concatenation of its string parts and the `text` fields of its text-bearing
object parts, non-text parts contributing nothing (stated via the
spec-side `specPartText`); any other `content` falls back to
`String(content)` or, when that is empty, `JSON.stringify(response)`.
Moreover `chatWithBot` with a populated cache resolves to exactly the
normalization of the model response. -/
theorem chat_response_normalized :
    (∀ s, normalizeResponse (.str s) = s) ∧
    (∀ s j, normalizeResponse (.obj (.str s) j) = s) ∧
    (∀ parts j, normalizeResponse (.obj (.arr parts) j)
        = String.join (parts.filterMap specPartText)) ∧
    (∀ rep j, normalizeResponse (.obj (.other rep) j)
        = if rep = "" then j else rep) ∧
    (∀ (env : ChatEnv) (vs : VectorStore) (ch em : Option Nat) (lm : Nat)
        (message : String),
      chatWithBot env
          { vectorStore := some vs, chain := ch, embeddings := em,
            llm := some lm } message
        = normalizeResponse (env.invoke lm
            [("system", systemPrompt),
             ("user", userMessage
               (String.intercalate "\n\n" (env.retriever vs message))
               message)])) := by
  refine ⟨fun s => rfl, fun s j => rfl, ?_, fun rep j => rfl, ?_⟩
  · intro parts j
    show String.join (parts.map partText) = _
    exact join_partText_eq_filterMap parts
  · intro env vs ch em lm message
    rfl

/-- Claim C5: with no vector store or no model handle cached, a chat turn returns
the fixed guidance string, for every retriever and model collaborator —
neither is consulted. -/
theorem chat_no_document_guidance (env : ChatEnv) (cache : SessionCache)
    (message : String)
    (h : cache.vectorStore = none ∨ cache.llm = none) :
    chatWithBot env cache message = noDocumentMessage := by
  rcases cache with ⟨vs, ch, em, lm⟩
  rcases h with h | h
  · have hv : vs = none := h
    subst hv
    rfl
  · have hl : lm = none := h
    subst hl
    cases vs <;> rfl

/-- Witness for C5: on the initial empty cache the guidance string is
returned. -/
theorem chat_no_document_guidance_witness :
    chatWithBot sampleChatEnv emptyCache "hi" = noDocumentMessage :=
  chat_no_document_guidance sampleChatEnv emptyCache "hi" (Or.inl rfl)

/-- Claim C2, counterexample: a plain-text document whose content is empty (hence
all-whitespace) is extracted SUCCESSFULLY — `extractText` returns the
decoded string with no emptiness check on the `text/plain` branch
(line 112), so the claim fails for the plain-text format. -/
theorem extract_plaintext_empty_cex :
    jsTrim sampleParseEnv.utf8Content = "" ∧
    extractText sampleParseEnv "text/plain" = .ok "" := by
  constructor
  · decide
  · rfl

/-- Claim C2 (amended): for PDF and DOCX an empty or all-whitespace extraction
fails with an empty-extraction error (re-wrapped by the respective catch
blocks), but for plain text `extractText` returns the decoded content
unconditionally, succeeding even when it is empty. -/
theorem extract_empty_amended :
    (∀ (env : ParseEnv) (t : Option String),
      env.pdfPrimary = .ok t →
      (t = none ∨ ∃ s, t = some s ∧ jsTrim s = "") →
      extractText env "application/pdf" = .error pdfEmptyFailureMessage) ∧
    (∀ (env : ParseEnv) (v : Option String),
      env.mammoth = .ok v →
      (v = none ∨ ∃ s, v = some s ∧ jsTrim s = "") →
      extractText env docxMime = .error docxEmptyFailureMessage) ∧
    (∀ env : ParseEnv, extractText env "text/plain" = .ok env.utf8Content) := by
  have hx1 : jsIncludes pdfEmptyMessage "XRef" = false := by decide
  have hx2 : jsIncludes pdfEmptyMessage "xref" = false := by decide
  have hp1 : jsIncludes pdfEmptyMessage "password" = false := by decide
  have hp2 : jsIncludes pdfEmptyMessage "encrypted" = false := by decide
  have hcatch : ∀ env : ParseEnv,
      pdfCatch env pdfEmptyMessage = .error pdfEmptyFailureMessage := by
    intro env
    unfold pdfCatch
    rw [hx1, hx2, hp1, hp2]
    rfl
  refine ⟨?_, ?_, ?_⟩
  · intro env t hp hempty
    unfold extractText
    rw [if_pos rfl, hp]
    rcases hempty with rfl | ⟨s, rfl, hs⟩
    · exact hcatch env
    · show (if (decide (s = "") || decide (jsTrim s = "")) = true
          then pdfCatch env pdfEmptyMessage else Except.ok s)
        = Except.error pdfEmptyFailureMessage
      rw [if_pos (by rw [hs]; simp)]
      exact hcatch env
  · intro env v hm hempty
    unfold extractText
    rw [if_neg (by decide), if_neg (by decide), if_pos rfl, hm]
    rcases hempty with rfl | ⟨s, rfl, hs⟩
    · rfl
    · show (if (decide (s = "") || decide (jsTrim s = "")) = true
          then Except.error ("Failed to parse DOCX file: DOCX appears to " ++
            "be empty or " ++ "contains no extractable text")
          else Except.ok s)
        = Except.error docxEmptyFailureMessage
      rw [if_pos (by rw [hs]; simp)]
      rfl
  · intro env
    unfold extractText
    rw [if_neg (by decide), if_pos rfl]

/-- Witness for the amended C2: an all-whitespace PDF and an empty DOCX
fail, an empty plain-text file succeeds. -/
theorem extract_empty_amended_witness :
    extractText sampleParseEnv "application/pdf"
      = .error pdfEmptyFailureMessage ∧
    extractText sampleParseEnv docxMime = .error docxEmptyFailureMessage ∧
    extractText sampleParseEnv "text/plain" = .ok "" :=
  ⟨extract_empty_amended.1 sampleParseEnv (some " ") rfl
      (Or.inr ⟨" ", rfl, by decide⟩),
   extract_empty_amended.2.1 sampleParseEnv (some "") rfl
      (Or.inr ⟨"", rfl, by decide⟩),
   extract_empty_amended.2.2 sampleParseEnv⟩

/-- Claim C7: any declared MIME type other than PDF, plain text and DOCX fails
immediately with the unsupported-format error, for every parser behaviour —
no parse is attempted. -/
theorem extract_unsupported_format (env : ParseEnv) (fileType : String)
    (h1 : fileType ≠ "application/pdf") (h2 : fileType ≠ "text/plain")
    (h3 : fileType ≠ docxMime) :
    extractText env fileType = .error "Unsupported file type" := by
  unfold extractText
  rw [if_neg h1, if_neg h2, if_neg h3]

/-- Witness for C7 at the concrete unsupported type "image/png". -/
theorem extract_unsupported_format_witness :
    extractText sampleParseEnv "image/png" = .error "Unsupported file type" :=
  extract_unsupported_format sampleParseEnv "image/png"
    (by decide) (by decide) (by decide)

/-- Claim C9, counterexample: a primary-parser failure message that indicates
password protection but also mentions xref corruption does NOT yield the
encrypted-source error and DOES run the fallback parser (which here
succeeds): the XRef test at line 35 precedes the password test at
line 105. -/
theorem encrypted_xref_precedence_cex :
    jsIncludes "bad xref: password-protected" "password" = true ∧
    extractText xrefPasswordParseEnv "application/pdf" = .ok "hello" := by
  constructor
  · decide
  · rfl

/-- Claim C9 (amended): for a primary-parser failure whose message indicates
password protection or encryption and does NOT mention XRef corruption,
`extractText` fails with the encrypted-source error, for every fallback
behaviour — the fallback parser is never attempted. -/
theorem encrypted_no_fallback_amended (env : ParseEnv) (msg : String)
    (hp : env.pdfPrimary = .err msg)
    (hx1 : jsIncludes msg "XRef" = false) (hx2 : jsIncludes msg "xref" = false)
    (hpw : jsIncludes msg "password" = true ∨
      jsIncludes msg "encrypted" = true) :
    extractText env "application/pdf" = .error pdfEncryptedMessage := by
  have hstep : extractText env "application/pdf" = pdfCatch env msg := by
    unfold extractText
    rw [if_pos rfl, hp]
  have hc : pdfCatch env msg = .error pdfEncryptedMessage := by
    unfold pdfCatch
    rcases hpw with h | h <;> simp [hx1, hx2, h]
  rw [hstep, hc]

/-- Witness for the amended C9: a pure password failure message yields the
encrypted error even though the fallback (here: a timeout) would
misbehave. -/
theorem encrypted_no_fallback_amended_witness :
    extractText encryptedParseEnv "application/pdf"
      = .error pdfEncryptedMessage :=
  encrypted_no_fallback_amended encryptedParseEnv "password required" rfl
    (by decide) (by decide) (Or.inl (by decide))

/-- Claim C8: when the primary PDF parse fails with an XRef message and the
pdf2json fallback runs into its timeout (armed at `pdfTimeoutMs` = 30000
milliseconds, line 45), `handlePdfUpload` returns a failure string that
contains "timeout", leaving the cache unchanged. -/
theorem xref_fallback_timeout (uenv : UploadEnv) (env : ParseEnv)
    (msg : String) (hp : env.pdfPrimary = .err msg)
    (hx : jsIncludes msg "XRef" = true ∨ jsIncludes msg "xref" = true)
    (ht : env.pdf2json = .timeout) (cache : SessionCache) :
    handlePdfUpload uenv (some { type := "application/pdf", parse := env })
        cache
      = ("Failed to extract text from document: " ++ pdfTimeoutMessage,
         cache) ∧
    jsIncludes ("Failed to extract text from document: " ++
      pdfTimeoutMessage) "timeout" = true ∧
    pdfTimeoutMs = 30000 := by
  have hstep : extractText env "application/pdf" = pdfCatch env msg := by
    unfold extractText
    rw [if_pos rfl, hp]
  have hcat : pdfCatch env msg = pdfFallback env msg := by
    unfold pdfCatch
    rcases hx with h | h <;> simp [h]
  have hfb : pdfFallback env msg = .error pdfTimeoutMessage := by
    unfold pdfFallback
    rw [ht]
  have hext : extractText env "application/pdf" = .error pdfTimeoutMessage := by
    rw [hstep, hcat, hfb]
  refine ⟨?_, by decide, rfl⟩
  unfold handlePdfUpload
  simp [hext]

/-- Witness for C8 at the concrete message "bad XRef entry" with a
timing-out fallback. -/
theorem xref_fallback_timeout_witness :
    handlePdfUpload sampleUploadEnv
        (some { type := "application/pdf", parse := xrefTimeoutParseEnv })
        emptyCache
      = ("Failed to extract text from document: " ++ pdfTimeoutMessage,
         emptyCache) ∧
    jsIncludes ("Failed to extract text from document: " ++
      pdfTimeoutMessage) "timeout" = true ∧
    pdfTimeoutMs = 30000 :=
  xref_fallback_timeout sampleUploadEnv xrefTimeoutParseEnv "bad XRef entry"
    rfl (Or.inl (by decide)) rfl emptyCache

/-- Claim C4: `handlePdfUpload` is total and every outcome is one of four fixed
result shapes: the missing-file message, the success message, or a
human-readable failure string wrapping the extraction or processing
error. -/
theorem upload_never_throws (env : UploadEnv) (input : Option FileInfo)
    (cache : SessionCache) :
    (handlePdfUpload env input cache).1 = "No file provided" ∨
    (handlePdfUpload env input cache).1 = uploadSuccessMessage ∨
    (∃ e, (handlePdfUpload env input cache).1
      = "Failed to extract text from document: " ++ e) ∨
    (∃ e, (handlePdfUpload env input cache).1
      = "Failed to process document: " ++ e) := by
  rcases input with _ | file
  · left
    rfl
  · cases hex : extractText file.parse file.type with
    | error e =>
      right; right; left
      exact ⟨e, by simp [handlePdfUpload, hex]⟩
    | ok text =>
      cases hag : env.createGroqAgent with
      | error e =>
        right; right; right
        exact ⟨e, by simp [handlePdfUpload, hex, hag]⟩
      | ok agent =>
        cases hfx : env.fromTexts (List.map String.mk (chunkText text.data))
            (List.range (chunkText text.data).length) agent.embeddings with
        | error e =>
          right; right; right
          exact ⟨e, by simp [handlePdfUpload, hex, hag, hfx]⟩
        | ok vs =>
          right; left
          simp [handlePdfUpload, hex, hag, hfx]

/-- Claim C10: the session cache is either left exactly as it was (every
missing-file, extraction-failure and processing-failure outcome), or the
upload succeeded and the cache now holds precisely the newly built vector
store together with the fresh agent handles — the overwrite happens only
on the success path, after the vector store is built. -/
theorem upload_cache_lifecycle (env : UploadEnv) (input : Option FileInfo)
    (cache : SessionCache) :
    (handlePdfUpload env input cache).2 = cache ∨
    ((handlePdfUpload env input cache).1 = uploadSuccessMessage ∧
      ∃ agent vs, env.createGroqAgent = .ok agent ∧
        (handlePdfUpload env input cache).2
          = { vectorStore := some vs, chain := some agent.chain,
              embeddings := some agent.embeddings, llm := some agent.llm }) := by
  rcases input with _ | file
  · left
    rfl
  · cases hex : extractText file.parse file.type with
    | error e =>
      left
      simp [handlePdfUpload, hex]
    | ok text =>
      cases hag : env.createGroqAgent with
      | error e =>
        left
        simp [handlePdfUpload, hex, hag]
      | ok agent =>
        cases hfx : env.fromTexts (List.map String.mk (chunkText text.data))
            (List.range (chunkText text.data).length) agent.embeddings with
        | error e =>
          left
          simp [handlePdfUpload, hex, hag, hfx]
        | ok vs =>
          right
          refine ⟨by simp [handlePdfUpload, hex, hag, hfx], agent, vs, rfl,
            by simp [handlePdfUpload, hex, hag, hfx]⟩

end SmartDocBot
